import Mathlib

/-!
Verification of the g67Frontend 3D-viewer core (src/App.js).

The app fetches an OBJ mesh from a server, centers it inside a pivot
node, renders it every frame while applying an accumulated drag-driven
rotation, and exposes "Generate" and "Reload Model" buttons guarded by a
loading modal.  Scalars are modelled as rationals (the JS code performs
only additions, subtractions, multiplications by constants and halving,
all exact over ℚ).  Asynchronous completions are modelled by passing the
outcome of the network call explicitly to the handler.
-/

namespace G67

/-- A 3-component vector, as THREE.Vector3 is used by App.js. -/
structure Vec3 where
  x : ℚ
  y : ℚ
  z : ℚ
deriving DecidableEq, Repr

instance : Add Vec3 := ⟨fun a b => ⟨a.x + b.x, a.y + b.y, a.z + b.z⟩⟩

instance : Sub Vec3 := ⟨fun a b => ⟨a.x - b.x, a.y - b.y, a.z - b.z⟩⟩

instance : Zero Vec3 := ⟨⟨0, 0, 0⟩⟩

/-- Componentwise minimum (THREE.Vector3.min). -/
def Vec3.minV (a b : Vec3) : Vec3 := ⟨min a.x b.x, min a.y b.y, min a.z b.z⟩

/-- Componentwise maximum (THREE.Vector3.max). -/
def Vec3.maxV (a b : Vec3) : Vec3 := ⟨max a.x b.x, max a.y b.y, max a.z b.z⟩

/-- Halving, as THREE's `multiplyScalar(0.5)` in `Box3.getCenter`. -/
def Vec3.half (v : Vec3) : Vec3 := ⟨v.x / 2, v.y / 2, v.z / 2⟩

/-- An axis-aligned bounding box with at least one point in it
(THREE.Box3 restricted to the non-empty case; the empty box is
represented by `Option Box3 = none` below). -/
structure Box3 where
  lo : Vec3
  hi : Vec3
deriving DecidableEq, Repr

/-- `Box3.expandByPoint`: grow the box to contain `p`. -/
def Box3.expandByPoint (b : Box3) (p : Vec3) : Box3 :=
  ⟨b.lo.minV p, b.hi.maxV p⟩

/-- The box of the non-empty point list `p :: ps` (THREE builds the box
by starting empty and expanding by every vertex; with at least one point
this equals starting from the degenerate box at the first point). -/
def boxFromPoints (p : Vec3) (ps : List Vec3) : Box3 :=
  ps.foldl Box3.expandByPoint ⟨p, p⟩

/-- An object loaded by OBJLoader: its mesh vertices in local
coordinates plus its `position` transform (rotation and scale stay at
their identity defaults throughout App.js until the render loop, which
is modelled separately). -/
structure Object3D where
  position : Vec3
  vertices : List Vec3
deriving DecidableEq, Repr

/-- `new THREE.Box3().setFromObject(object)`: the world-space bounding
box of the object's vertices, `none` when the object has no geometry
(THREE's empty box). -/
def setFromObject (o : Object3D) : Option Box3 :=
  match o.vertices with
  | [] => none
  | p :: ps => some (boxFromPoints (p + o.position) (ps.map (· + o.position)))

/-- `Box3.getCenter`: midpoint of the box; THREE returns `(0,0,0)` for
the empty box. -/
def getCenter : Option Box3 → Vec3
  | none => 0
  | some b => (b.lo + b.hi).half

/-- The pivot node built in `loadModel`'s success callback: a fresh
`THREE.Object3D` (position defaults to the origin) holding the loaded
object as its only child, with a y-rotation the render loop writes. -/
structure Pivot where
  position : Vec3
  rotationY : ℚ
  child : Object3D
deriving DecidableEq, Repr

/-- Lines 37-47 of App.js: compute the bounding box of the loaded
object, take its center, subtract the center from the object's position
and wrap the object in a new pivot at the world origin. -/
def normalize (object : Object3D) : Pivot :=
  let box := setFromObject object
  let center := getCenter box
  { position := 0
    rotationY := 0
    child := { object with position := object.position - center } }

/-! ## RotationController (PanResponder, lines 107-113) -/

/-- The fixed drag sensitivity (line 110: `const sensitivity = 0.001`). -/
def SENSITIVITY : ℚ := 1 / 1000

/-- The gesture state delivered by PanResponder: accumulated horizontal
and vertical drag distances. -/
structure GestureState where
  dx : ℚ
  dy : ℚ
deriving DecidableEq, Repr

/-- `onPanResponderMove` (lines 109-112): add `dx * sensitivity` to the
stored y-rotation angle; `dy` is not read. -/
def onPanResponderMove (angle : ℚ) (g : GestureState) : ℚ :=
  angle + g.dx * SENSITIVITY

/-- Processing a whole sequence of drag events, one
`onPanResponderMove` call each. -/
def processDrags (angle : ℚ) (gs : List GestureState) : ℚ :=
  gs.foldl onPanResponderMove angle

/-! ## Application state and the load / generate / reload handlers -/

/-- The mutable state App.js keeps across callbacks: the `isLoading`
React state, the `rotation` ref, the `modelRef` ref, whether
`sceneRef.current` is set, the list of pivots currently attached to the
scene (besides the ambient light, which is added once at creation), and
the observable output channels `alert(...)` and `console.error(...)`. -/
structure AppState where
  isLoading : Bool
  rotationY : ℚ
  modelRef : Option Pivot
  sceneCreated : Bool
  sceneModels : List Pivot
  alerts : List String
  consoleErrors : List String
deriving DecidableEq, Repr

/-- How the OBJLoader callback in `loadModel` completes: either the
parsed object is delivered to the success callback, or the error
callback fires with an error whose message is `errMsg` (covering both
transport failures and unparsable payloads). -/
inductive LoadOutcome where
  | success (object : Object3D)
  | failure (errMsg : String)
deriving DecidableEq, Repr

/-- `loadModel` (lines 24-61) run to completion with outcome `o`:
set `isLoading` to true, then on success remove the previously
referenced pivot from the scene (if any), normalize the object into a
fresh pivot, attach it, store it in `modelRef` and clear `isLoading`;
on failure log to the console and clear `isLoading`.  The promise it
returns resolves or rejects accordingly, which the callers below
observe through `o`. -/
def loadModel (s : AppState) (o : LoadOutcome) : AppState :=
  let s1 := { s with isLoading := true }
  match o with
  | .success object =>
    let s2 :=
      match s1.modelRef with
      | some m => { s1 with sceneModels := s1.sceneModels.erase m }
      | none => s1
    let pivot := normalize object
    { s2 with
        modelRef := some pivot
        sceneModels := s2.sceneModels ++ [pivot]
        isLoading := false }
  | .failure errMsg =>
    { s1 with
        consoleErrors := s1.consoleErrors ++ ["Error loading .obj file: " ++ errMsg]
        isLoading := false }

/-- How the `fetch` in `handleGenerate` completes: a response with
`ok = true` whose JSON body carries `message`, a response with a
non-success HTTP status, or a rejected fetch with error message `e`. -/
inductive GenResponse where
  | okJson (message : String)
  | httpError (status : Nat)
  | netFailure (e : String)
deriving DecidableEq, Repr

/-- `handleGenerate` (lines 116-129) run to completion with response
`r`: set `isLoading`, POST to the generate endpoint, throw
`Error("Failed to generate model")` on a non-ok response, alert the
success message or the caught error message, and clear `isLoading` in
the `finally` block. -/
def handleGenerate (s : AppState) (r : GenResponse) : AppState :=
  let s1 := { s with isLoading := true }
  let s2 :=
    match r with
    | .okJson message => { s1 with alerts := s1.alerts ++ ["Success: " ++ message] }
    | .httpError _ => { s1 with alerts := s1.alerts ++ ["Error: " ++ "Failed to generate model"] }
    | .netFailure e => { s1 with alerts := s1.alerts ++ ["Error: " ++ e] }
  { s2 with isLoading := false }

/-- `handleReloadModel` (lines 132-145) run to completion: a no-op when
`sceneRef.current` is unset; otherwise set `isLoading`, await
`loadModel`, alert success or failure, and clear `isLoading` in the
`finally` block. -/
def handleReloadModel (s : AppState) (o : LoadOutcome) : AppState :=
  if s.sceneCreated then
    let s1 := { s with isLoading := true }
    let s2 := loadModel s1 o
    let s3 :=
      match o with
      | .success _ => { s2 with alerts := s2.alerts ++ ["Success: Model reloaded successfully"] }
      | .failure _ => { s2 with alerts := s2.alerts ++ ["Error: Could not reload model"] }
    { s3 with isLoading := false }
  else s

/-- The state effect of `onContextCreate` (lines 63-104) up to and
including the initial `await loadModel(scene, flaskServerURL)`: the
scene is created (camera and ambient light added) and the initial load
runs with no surrounding try/catch, so a rejection propagates out of
`onContextCreate` unhandled. -/
def onContextCreate (s : AppState) (o : LoadOutcome) : AppState :=
  loadModel { s with sceneCreated := true } o

/-- The state before `onContextCreate` runs: nothing loaded, angle 0,
no scene, no output emitted. -/
def initialState : AppState :=
  { isLoading := false
    rotationY := 0
    modelRef := none
    sceneCreated := false
    sceneModels := []
    alerts := []
    consoleErrors := [] }

/-! ## Observable event trace of `handleGenerate`, and its reading as
the spec's OperationStatus sequence -/

/-- A UI-observable event: a `setIsLoading` call (driving the busy
modal) or an `alert` call. -/
inductive Event where
  | setLoading (b : Bool)
  | alertMsg (msg : String)
deriving DecidableEq, Repr

/-- The events `handleGenerate` emits, in program order (lines
116-129): show the busy modal, alert the outcome, hide the busy modal
in `finally`. -/
def handleGenerateEvents (r : GenResponse) : List Event :=
  [Event.setLoading true] ++
    (match r with
     | .okJson message => [Event.alertMsg ("Success: " ++ message)]
     | .httpError _ => [Event.alertMsg ("Error: " ++ "Failed to generate model")]
     | .netFailure e => [Event.alertMsg ("Error: " ++ e)]) ++
    [Event.setLoading false]

/-- The spec's OperationStatus values for the generate operation. -/
inductive OpStatus where
  | Idle
  | BusyGenerating
  | Failed (message : String)
deriving DecidableEq, Repr

/-- Reading of one generate-operation event as an OperationStatus, per
the spec's correspondence: the busy modal shown is `Busy(Generating)`,
an `Error:`-prefixed alert is `Failed` carrying the error text, and a
success alert or the busy modal hidden is `Idle`. -/
def statusOfEvent : Event → OpStatus
  | .setLoading true => OpStatus.BusyGenerating
  | .setLoading false => OpStatus.Idle
  | .alertMsg m =>
    if m.data.take 7 = "Error: ".data
    then OpStatus.Failed (String.mk (m.data.drop 7))
    else OpStatus.Idle

/-- The OperationStatus sequence of one generate operation: the
initial `Idle`, then the status after each emitted event. -/
def genStatusTrace (r : GenResponse) : List OpStatus :=
  OpStatus.Idle :: (handleGenerateEvents r).map statusOfEvent

/-! ## Scene occupancy under repeated successful loads -/

/-- The scene-occupancy view of the state: the identities of the pivot
nodes currently attached to the scene (the ambient light aside) and the
pivot `modelRef` currently points at.  Pivot identities are abstracted
as naturals since `scene.remove`/`scene.add` work by object identity. -/
structure SceneState where
  scenePivots : List Nat
  modelRef : Option Nat
deriving DecidableEq, Repr

/-- The scene-graph effect of one successful `loadModel` completion
(lines 31-48) attaching the fresh pivot `p`: remove the previously
referenced pivot from the scene if there is one, then add `p` and point
`modelRef` at it.  The whole callback runs synchronously on the single
JS thread, so no render tick observes an intermediate state. -/
def loadSuccess (s : SceneState) (p : Nat) : SceneState :=
  let pivots :=
    match s.modelRef with
    | some m => s.scenePivots.erase m
    | none => s.scenePivots
  { scenePivots := pivots ++ [p], modelRef := some p }

/-- The scene right after creation: no pivot attached, `modelRef`
null. -/
def initScene : SceneState := ⟨[], none⟩

/-- The scene after a sequence of successful loads attaching pivots
`ps`, in order. -/
def runLoads (ps : List Nat) : SceneState :=
  ps.foldl loadSuccess initScene

/-! ## The render loop (lines 91-103) -/

/-- What one rendered frame shows: the scene contents passed to
`renderer.render(scene, camera)` and whether `gl.endFrameEXP()`
presented the frame. -/
structure Frame where
  hasAmbientLight : Bool
  renderedPivot : Option Pivot
  throughCamera : Bool
  presented : Bool
deriving DecidableEq, Repr

/-- The state the render closure reads and writes: whether the ambient
light was added at scene creation (line 84), the pivot attached to the
scene — the very object `modelRef` points at, since `loadModel` stores
in `modelRef` exactly the pivot it adds (see `runLoads_spec`) — and the
current accumulated rotation angle. -/
structure RenderState where
  lightInScene : Bool
  modelRef : Option Pivot
  rotationY : ℚ
deriving DecidableEq, Repr

/-- One tick of `render` (lines 91-101): reschedule (modelled by the
caller invoking `renderTick` again), set the referenced pivot's
y-rotation to the current angle when a pivot exists and otherwise touch
nothing, render the scene through the camera, and present the frame. -/
def renderTick (s : RenderState) : RenderState × Frame :=
  let s2 :=
    match s.modelRef with
    | none => s
    | some p => { s with modelRef := some { p with rotationY := s.rotationY } }
  (s2,
   { hasAmbientLight := s2.lightInScene
     renderedPivot := s2.modelRef
     throughCamera := true
     presented := true })

/-! ## Helper lemmas -/

theorem Vec3.ext_components {a b : Vec3} (hx : a.x = b.x) (hy : a.y = b.y)
    (hz : a.z = b.z) : a = b := by
  cases a; cases b; cases hx; cases hy; cases hz; rfl

@[simp] theorem Vec3.add_def (a b : Vec3) :
    a + b = ⟨a.x + b.x, a.y + b.y, a.z + b.z⟩ := rfl

@[simp] theorem Vec3.sub_def (a b : Vec3) :
    a - b = ⟨a.x - b.x, a.y - b.y, a.z - b.z⟩ := rfl

@[simp] theorem Vec3.zero_def : (0 : Vec3) = ⟨0, 0, 0⟩ := rfl

theorem foldl_processDrags (a : ℚ) (gs : List GestureState) :
    processDrags a gs = a + (gs.map GestureState.dx).sum * SENSITIVITY := by
  induction gs generalizing a with
  | nil => simp [processDrags]
  | cons g gs ih =>
    show processDrags (onPanResponderMove a g) gs = _
    rw [ih]
    simp only [onPanResponderMove, List.map_cons, List.sum_cons]
    ring

theorem expandByPoint_translate (b : Box3) (q t : Vec3) :
    Box3.expandByPoint ⟨b.lo + t, b.hi + t⟩ (q + t) =
      ⟨(b.expandByPoint q).lo + t, (b.expandByPoint q).hi + t⟩ := by
  simp only [Box3.expandByPoint, Vec3.minV, Vec3.maxV, Vec3.add_def,
    Box3.mk.injEq, Vec3.mk.injEq]
  refine ⟨⟨?_, ?_, ?_⟩, ?_, ?_, ?_⟩ <;>
    first
      | exact min_add_add_right _ _ _
      | exact max_add_add_right _ _ _

theorem foldl_expand_translate (t : Vec3) (b : Box3) (ps : List Vec3) :
    (ps.map (fun v => v + t)).foldl Box3.expandByPoint ⟨b.lo + t, b.hi + t⟩ =
      ⟨(ps.foldl Box3.expandByPoint b).lo + t,
       (ps.foldl Box3.expandByPoint b).hi + t⟩ := by
  induction ps generalizing b with
  | nil => rfl
  | cons q qs ih =>
    simp only [List.map_cons, List.foldl_cons]
    rw [expandByPoint_translate b q t]
    exact ih (b.expandByPoint q)

/-- Moving an object's position translates its world bounding box. -/
theorem setFromObject_reposition (o : Object3D) (newPos : Vec3) :
    setFromObject { o with position := newPos } =
      Option.map
        (fun b => ⟨b.lo + (newPos - o.position), b.hi + (newPos - o.position)⟩)
        (setFromObject o) := by
  cases hv : o.vertices with
  | nil => simp [setFromObject, hv]
  | cons p ps =>
    have harg : ∀ v : Vec3, v + newPos = (v + o.position) + (newPos - o.position) := by
      intro v
      apply Vec3.ext_components <;> simp
    have hmap : ps.map (fun v => v + newPos) =
        (ps.map (fun v => v + o.position)).map (fun v => v + (newPos - o.position)) := by
      rw [List.map_map]
      exact List.map_congr_left fun v _ => harg v
    simp only [setFromObject, hv, Option.map_some]
    rw [harg p, hmap]
    exact congrArg some
      (foldl_expand_translate (newPos - o.position)
        ⟨p + o.position, p + o.position⟩ (ps.map (fun v => v + o.position)))

theorem setFromObject_cons (o : Object3D) (p : Vec3) (ps : List Vec3)
    (hv : o.vertices = p :: ps) :
    setFromObject o =
      some (boxFromPoints (p + o.position) (ps.map (fun v => v + o.position))) := by
  unfold setFromObject
  rw [hv]

/-- The scene-occupancy invariant: the pivots attached to the scene are
exactly the one `modelRef` points at, when it points at one. -/
def sceneInv (s : SceneState) : Prop :=
  s.scenePivots = (s.modelRef.map (fun m => [m])).getD []

theorem loadSuccess_inv (s : SceneState) (p : Nat) (h : sceneInv s) :
    sceneInv (loadSuccess s p) := by
  obtain ⟨pivots, mref⟩ := s
  cases mref with
  | none =>
    simp only [sceneInv, Option.map_none, Option.getD_none] at h
    simp [sceneInv, loadSuccess, h]
  | some m =>
    simp only [sceneInv, Option.map_some, Option.getD_some] at h
    simp [sceneInv, loadSuccess, h]

theorem foldl_loadSuccess_inv (ps : List Nat) :
    ∀ s : SceneState, sceneInv s → sceneInv (ps.foldl loadSuccess s) := by
  induction ps with
  | nil => exact fun s h => h
  | cons p ps ih => exact fun s h => ih _ (loadSuccess_inv s p h)

theorem statusOfEvent_generate_error :
    statusOfEvent (Event.alertMsg ("Error: " ++ "Failed to generate model")) =
      OpStatus.Failed "Failed to generate model" := by decide

/-! ## The claims -/

/-- C1: processing any finite sequence of drag gesture events adds
`Σ dx_i * SENSITIVITY` to the initial angle, the vertical deltas having
no effect; in particular the horizontal delta sequence `[100, -50, 200]`
from angle `0` yields exactly `0.25` radians. -/
theorem drag_rotation_accumulates (a : ℚ) (gs : List GestureState) :
    processDrags a gs = a + (gs.map GestureState.dx).sum * SENSITIVITY ∧
    processDrags 0 [⟨100, 37⟩, ⟨-50, -12⟩, ⟨200, 95⟩] = 1 / 4 := by
  refine ⟨foldl_processDrags a gs, ?_⟩
  norm_num [processDrags, onPanResponderMove, SENSITIVITY]

/-- C2: for every mesh with at least one vertex (degenerate
single-point bounding boxes included), `normalize` puts the pivot at
the world origin, keeps the mesh geometry, shifts the mesh's position
by the negation of its bounding-box center, and thereby places the
mesh's bounding-box center exactly at the pivot's origin; the
construction is a total function with no division by the box extent. -/
theorem normalize_centers_mesh (o : Object3D) (h : o.vertices ≠ []) :
    (normalize o).position = 0 ∧
    (normalize o).child.vertices = o.vertices ∧
    (normalize o).child.position = o.position - getCenter (setFromObject o) ∧
    getCenter (setFromObject (normalize o).child) = 0 := by
  refine ⟨rfl, rfl, rfl, ?_⟩
  obtain ⟨p, ps, hv⟩ : ∃ p ps, o.vertices = p :: ps := by
    cases hv : o.vertices with
    | nil => exact absurd hv h
    | cons p ps => exact ⟨p, ps, rfl⟩
  have hb := setFromObject_cons o p ps hv
  show getCenter
      (setFromObject { o with position := o.position - getCenter (setFromObject o) }) = 0
  rw [setFromObject_reposition o (o.position - getCenter (setFromObject o)), hb]
  simp only [getCenter, Option.map_some', Vec3.half, Vec3.add_def, Vec3.sub_def,
    Vec3.zero_def, Vec3.mk.injEq]
  refine ⟨?_, ?_, ?_⟩ <;> ring

/-- Witness for C2 at a degenerate (single-point) mesh. -/
theorem normalize_centers_mesh_witness :
    (Object3D.mk ⟨1, 2, 3⟩ [⟨5, 6, 7⟩]).vertices ≠ [] ∧
    getCenter (setFromObject (normalize (Object3D.mk ⟨1, 2, 3⟩ [⟨5, 6, 7⟩])).child) = 0 :=
  ⟨by simp, (normalize_centers_mesh (Object3D.mk ⟨1, 2, 3⟩ [⟨5, 6, 7⟩]) (by simp)).2.2.2⟩

/-- C3: starting from the freshly created scene, any sequence of
successful model loads leaves at most one pivot attached; the attached
pivots are exactly the one `modelRef` points at, and after one more
load only the newest pivot is attached.  Each load step removes the
previous pivot before attaching the new one inside one synchronous
callback, so no render tick observes an intermediate state. -/
theorem scene_single_occupancy (ps : List Nat) (q : Nat) :
    (runLoads ps).scenePivots.length ≤ 1 ∧
    (runLoads ps).scenePivots = (((runLoads ps).modelRef).map (fun m => [m])).getD [] ∧
    (runLoads (ps ++ [q])).scenePivots = [q] := by
  have hinv : sceneInv (runLoads ps) :=
    foldl_loadSuccess_inv ps initScene (by simp [sceneInv, initScene])
  refine ⟨?_, hinv, ?_⟩
  · rw [hinv]
    cases (runLoads ps).modelRef <;> simp
  · have happ : runLoads (ps ++ [q]) = loadSuccess (runLoads ps) q := by
      simp [runLoads, List.foldl_append]
    have h2 := loadSuccess_inv (runLoads ps) q hinv
    rw [happ]
    simpa [sceneInv, loadSuccess] using h2

/-- C4: every completion path of a load, the initial load at context
creation, a generate, or a reload (once the scene exists) ends with the
busy indicator cleared: `isLoading` is `false` afterwards whatever the
outcome. -/
theorem busy_indicator_cleared (s : AppState) (o o' : LoadOutcome) (r : GenResponse)
    (h : s.sceneCreated = true) :
    (loadModel s o).isLoading = false ∧
    (onContextCreate s o).isLoading = false ∧
    (handleGenerate s r).isLoading = false ∧
    (handleReloadModel s o').isLoading = false := by
  refine ⟨?_, ?_, ?_, ?_⟩
  · cases o <;> rfl
  · cases o <;> rfl
  · cases r <;> rfl
  · cases o' <;> simp [handleReloadModel, h, loadModel]

/-- Witness for C4 on a failing reload from a created scene. -/
theorem busy_indicator_cleared_witness :
    ({ initialState with sceneCreated := true } : AppState).sceneCreated = true ∧
    (handleReloadModel { initialState with sceneCreated := true }
      (LoadOutcome.failure "Network request failed")).isLoading = false :=
  ⟨rfl,
    (busy_indicator_cleared { initialState with sceneCreated := true }
      (LoadOutcome.success ⟨0, [0]⟩) (LoadOutcome.failure "Network request failed")
      (GenResponse.httpError 500) rfl).2.2.2⟩

/-- A state in which an operation is already in flight (the busy modal
is showing). -/
def busyState : AppState :=
  { initialState with isLoading := true, sceneCreated := true }

/-- C5 counterexample: from a state that is already busy, a generate
request is still fully processed (it runs and surfaces its alert, so
the state changes), and a reload request is likewise processed — the
handlers never consult `isLoading`, refuting that a request arriving
while busy is not accepted. -/
theorem busy_request_still_accepted :
    busyState.isLoading = true ∧
    handleGenerate busyState (GenResponse.okJson "done") ≠ busyState ∧
    (handleGenerate busyState (GenResponse.okJson "done")).alerts =
      busyState.alerts ++ ["Success: done"] ∧
    (handleReloadModel busyState (LoadOutcome.failure "x")).alerts =
      busyState.alerts ++ ["Error: Could not reload model"] := by
  refine ⟨rfl, ?_, rfl, ?_⟩
  · decide
  · decide

/-- C5 amended: load and generate requests are accepted regardless of
the busy flag — a generate always runs to completion and surfaces
exactly one alert from any state, and a reload does so exactly when the
scene has been created; neither handler consults `isLoading`, so two
operations can be in flight at once. -/
theorem request_acceptance_guards (s : AppState) (r : GenResponse) (o : LoadOutcome) :
    (handleGenerate s r).alerts.length = s.alerts.length + 1 ∧
    (handleReloadModel s o).alerts.length =
      s.alerts.length + (if s.sceneCreated then 1 else 0) := by
  constructor
  · cases r <;> simp [handleGenerate]
  · cases hsc : s.sceneCreated with
    | false => simp [handleReloadModel, hsc]
    | true =>
      cases o with
      | success object =>
        cases hm : s.modelRef <;> simp [handleReloadModel, hsc, loadModel, hm]
      | failure e => simp [handleReloadModel, hsc, loadModel]

/-- C6: a non-success HTTP status on the generate request produces the
exact error message `"Failed to generate model"` and the status
sequence `Idle → Busy(Generating) → Failed("Failed to generate model")
→ Idle`, while an ok response surfaces the JSON body's `message` as a
success alert. -/
theorem generate_error_status_sequence (c : Nat) (m : String) :
    genStatusTrace (GenResponse.httpError c) =
      [OpStatus.Idle, OpStatus.BusyGenerating,
       OpStatus.Failed "Failed to generate model", OpStatus.Idle] ∧
    handleGenerateEvents (GenResponse.okJson m) =
      [Event.setLoading true, Event.alertMsg ("Success: " ++ m),
       Event.setLoading false] := by
  constructor
  · have hev : handleGenerateEvents (GenResponse.httpError c) =
        [Event.setLoading true,
         Event.alertMsg ("Error: " ++ "Failed to generate model"),
         Event.setLoading false] := rfl
    simp only [genStatusTrace, hev, List.map_cons, List.map_nil,
      statusOfEvent_generate_error]
    rfl
  · rfl

/-- C7: a failed load leaves the scene graph untouched — the attached
pivots and `modelRef` (and the rotation angle) are exactly what they
were before; the scene is only mutated inside the success callback. -/
theorem load_failure_preserves_scene (s : AppState) (e : String) :
    (loadModel s (LoadOutcome.failure e)).sceneModels = s.sceneModels ∧
    (loadModel s (LoadOutcome.failure e)).modelRef = s.modelRef ∧
    (loadModel s (LoadOutcome.failure e)).rotationY = s.rotationY :=
  ⟨rfl, rfl, rfl⟩

/-- C8: a render tick with no model attached leaves the state
untouched and renders the scene — ambient light only, through the
camera — and presents the frame, faulting nowhere; a tick with a pivot
attached first sets the pivot's y-rotation to the current accumulated
angle and renders that. -/
theorem render_tick_total (light : Bool) (a : ℚ) (p : Pivot) :
    renderTick ⟨light, none, a⟩ =
      (⟨light, none, a⟩,
       { hasAmbientLight := light, renderedPivot := none,
         throughCamera := true, presented := true }) ∧
    renderTick ⟨light, some p, a⟩ =
      (⟨light, some { p with rotationY := a }, a⟩,
       { hasAmbientLight := light, renderedPivot := some { p with rotationY := a },
         throughCamera := true, presented := true }) :=
  ⟨rfl, rfl⟩

/-- C9 counterexample: the initial load at scene creation is awaited
without any try/catch, so when it fails the error is only written to
the developer console — the user-visible alert list stays empty,
refuting that every load path surfaces a user-visible failure
message. -/
theorem initial_load_failure_no_alert :
    (onContextCreate initialState (LoadOutcome.failure "Network request failed")).alerts
      = [] ∧
    (onContextCreate initialState
        (LoadOutcome.failure "Network request failed")).consoleErrors =
      ["Error loading .obj file: Network request failed"] ∧
    (onContextCreate initialState
        (LoadOutcome.failure "Network request failed")).isLoading = false :=
  ⟨rfl, by decide, rfl⟩

/-- C9 amended: errors in the user-triggered generate and reload are
converted into user-visible alert messages, but an error in the
initial load at scene creation is only logged to the console (and
clears the busy flag) — it produces no user-visible message. -/
theorem error_surfacing_paths (s : AppState) (e : String) (c : Nat) :
    (handleGenerate s (GenResponse.httpError c)).alerts =
      s.alerts ++ ["Error: " ++ "Failed to generate model"] ∧
    (handleGenerate s (GenResponse.netFailure e)).alerts =
      s.alerts ++ ["Error: " ++ e] ∧
    (handleReloadModel s (LoadOutcome.failure e)).alerts =
      s.alerts ++ (if s.sceneCreated then ["Error: Could not reload model"] else []) ∧
    (onContextCreate s (LoadOutcome.failure e)).alerts = s.alerts ∧
    (onContextCreate s (LoadOutcome.failure e)).consoleErrors =
      s.consoleErrors ++ ["Error loading .obj file: " ++ e] := by
  refine ⟨rfl, rfl, ?_, rfl, rfl⟩
  cases hsc : s.sceneCreated with
  | false => simp [handleReloadModel, hsc]
  | true => simp [handleReloadModel, hsc, loadModel]

/-- C10: a generate run, whatever its outcome, leaves the scene graph
and the rotation state untouched: the attached pivots, `modelRef` and
the accumulated angle are unchanged — it only toggles the busy flag
and surfaces one alert. -/
theorem generate_preserves_viewer_state (s : AppState) (r : GenResponse) :
    (handleGenerate s r).sceneModels = s.sceneModels ∧
    (handleGenerate s r).modelRef = s.modelRef ∧
    (handleGenerate s r).rotationY = s.rotationY := by
  cases r <;> exact ⟨rfl, rfl, rfl⟩

end G67
